import Mathlib

/-!
Verification of the supervised shell-command execution core of RA.Aid
(`src/ra_aid/tools/shell.py`): the output truncator `_truncate_for_log`,
the command gate / orchestration `run_shell_command`, and a model of the
process supervisor `run_interactive_command`.

Python strings are modelled as `List Char` (`len` is `List.length`,
slicing `text[:n]` is `List.take n`, concatenation is `++`).
-/

namespace RAAid

/-- The fixed truncation marker appended by `_truncate_for_log`
(`"... [truncated]"`, 15 characters). -/
def truncationMarker : List Char := "... [truncated]".data

/-- Embedding of `_truncate_for_log` from `src/ra_aid/tools/shell.py`:
if `len(text) <= max_length` return `text` unchanged, otherwise return
`text[:max_length] + "... [truncated]"`. -/
def _truncate_for_log (text : List Char) (max_length : Nat) : List Char :=
  if text.length ≤ max_length then text
  else text.take max_length ++ truncationMarker

/-- The `"config"` entry of `_global_memory`, a dict in which the key
`"cowboy_mode"` maps to a boolean (absent key reads as `False` via
`.get("cowboy_mode", False)`, so a plain `Bool` field suffices). -/
structure Config where
  cowboy_mode : Bool
deriving DecidableEq

/-- The slice of `_global_memory` that `run_shell_command` touches: the
optional `"config"` entry (`none` models a dict with no `"config"` key). -/
structure GlobalMemory where
  config : Option Config
deriving DecidableEq

/-- The read `_global_memory.get("config", {}).get("cowboy_mode", False)`
at the top of `run_shell_command`: both lookups are defaulted, so a missing
`"config"` entry reads as `false`. -/
def cowboyModeOf (mem : GlobalMemory) : Bool :=
  match mem.config with
  | none => false
  | some cfg => cfg.cowboy_mode

/-- The write `_global_memory["config"]["cowboy_mode"] = True` performed on
response `"c"`: it indexes `"config"` without a default, so it raises
`KeyError` when the entry is absent. -/
def promoteCowboy (mem : GlobalMemory) : Option GlobalMemory :=
  match mem.config with
  | none => none
  | some cfg => some { config := some { cfg with cowboy_mode := true } }

/-- A user response collected by `Prompt.ask` with
`choices=["y", "n", "c"]`: the prompt re-asks until one of these is given,
so the collected response is one of exactly these three. -/
inductive Response where
  | y
  | n
  | c
deriving DecidableEq

/-- The closed decision enumeration of the Command Gate. -/
inductive ApprovalDecision where
  | Run
  | Deny
  | RunAndPromoteSession
deriving DecidableEq

/-- The gate's mapping from the (optional) user response to a decision:
`"n"` denies, `"c"` runs and promotes the session, anything else (`"y"`,
the only remaining choice, or no explicit answer via `default="y"`) runs. -/
def decisionOf (r : Option Response) : ApprovalDecision :=
  match r.getD Response.y with
  | Response.n => ApprovalDecision.Deny
  | Response.c => ApprovalDecision.RunAndPromoteSession
  | Response.y => ApprovalDecision.Run

/-- A Python exception escaping `run_shell_command` uncaught; in this flow
only the `KeyError` from the promotion write can do so. -/
inductive PyError where
  | keyError (key : String)
deriving DecidableEq

/-- The dict returned by `run_shell_command`:
`{"output": ..., "return_code": ..., "success": ...}`. -/
structure ExecutionResult where
  output : String
  return_code : Int
  success : Bool
deriving DecidableEq

/-- The environment a single `run_shell_command` call interacts with:
the user's answer to the confirmation prompt (`none` means the environment
supplied no explicit answer, so `Prompt.ask` yields the default `"y"`),
and the outcome of `run_interactive_command` (`Except.error msg` models
any exception raised by the supervisor, with `str(e) = msg`;
`Except.ok (output, return_code)` a normal completion with the decoded
output). -/
structure Env where
  userResponse : Option Response
  supervisor : Except String (String × Int)

/-- Observable outcome of one `run_shell_command` call: the returned dict
(`none` when an exception propagated instead), the exception if one
propagated, the memory after the call, whether the confirmation prompt was
solicited, and whether `run_interactive_command` was invoked. -/
structure CallOutcome where
  result : Option ExecutionResult
  raised : Option PyError
  memory : GlobalMemory
  decision : ApprovalDecision
  prompted : Bool
  executed : Bool
deriving DecidableEq

/-- The `try` block of `run_shell_command`: invoke the supervisor; on
normal completion build the result dict with
`output = truncate_output(output.decode()) if output else ""` and
`success = return_code == 0`; on an exception return
`{"output": str(e), "return_code": 1, "success": False}`.
`truncate_output` (from `ra_aid.text.processing`, outside this excerpt) is
a parameter `truncOut`. -/
def supervisePhase (truncOut : String → String) (mem : GlobalMemory)
    (env : Env) (decision : ApprovalDecision) (prompted : Bool) : CallOutcome :=
  match env.supervisor with
  | Except.ok (output, return_code) =>
      { result := some
          { output := if output.isEmpty then "" else truncOut output
            return_code := return_code
            success := return_code == 0 }
        raised := none
        memory := mem
        decision := decision
        prompted := prompted
        executed := true }
  | Except.error e =>
      { result := some { output := e, return_code := 1, success := false }
        raised := none
        memory := mem
        decision := decision
        prompted := prompted
        executed := true }

/-- Embedding of `run_shell_command` from `src/ra_aid/tools/shell.py`.
Reads `cowboy_mode`; if it is set, skips the confirmation prompt and goes
straight to execution. Otherwise prompts: response `"n"` returns the
cancellation dict without executing; response `"c"` performs the promotion
write (which raises `KeyError` if the `"config"` entry is absent) and then
executes; response `"y"` (or the default) executes. Console printing and
the work-log event carry no data back into the result and are not
modelled. -/
def run_shell_command (truncOut : String → String)
    (mem : GlobalMemory) (env : Env) : CallOutcome :=
  let cowboy_mode := cowboyModeOf mem
  if cowboy_mode then
    supervisePhase truncOut mem env ApprovalDecision.Run false
  else
    let response := env.userResponse.getD Response.y
    match response with
    | Response.n =>
        { result := some
            { output := "Command execution cancelled by user"
              return_code := 1
              success := false }
          raised := none
          memory := mem
          decision := ApprovalDecision.Deny
          prompted := true
          executed := false }
    | Response.c =>
        match promoteCowboy mem with
        | none =>
            { result := none
              raised := some (PyError.keyError "config")
              memory := mem
              decision := ApprovalDecision.RunAndPromoteSession
              prompted := true
              executed := false }
        | some mem' =>
            supervisePhase truncOut mem' env
              ApprovalDecision.RunAndPromoteSession true
    | Response.y =>
        supervisePhase truncOut mem env ApprovalDecision.Run true

/-- Modelled from the spec: the Process Supervisor `run_interactive_command`
(module `ra_aid.proc.interactive`) is not part of this excerpt, so the
child process it waits on is modelled abstractly. `naturalExit` is the
time at which the process would exit on its own (`none` = never);
`exitsOnTerm` says whether it honours a graceful termination signal. -/
structure ChildProcess where
  naturalExit : Option Nat
  exitsOnTerm : Bool
deriving DecidableEq

/-- State of the supervisor's deadline-based polling loop: the current
tick, whether the child has been reaped, and the times (if any) at which
the graceful termination signal and the forceful kill were sent. -/
structure SimState where
  time : Nat
  exited : Bool
  termTime : Option Nat
  killTime : Option Nat
  exitAt : Option Nat
deriving DecidableEq

/-- Modelled from the spec: whether the child exits at the current tick —
it has reached its natural exit time, or a graceful signal was sent and
the process honours it, or a forceful kill (unignorable) was sent. -/
def procExitsNow (p : ChildProcess) (s : SimState) : Bool :=
  (match p.naturalExit with
   | some n => decide (n ≤ s.time)
   | none => false)
  || (s.termTime.isSome && p.exitsOnTerm)
  || s.killTime.isSome

/-- Modelled from the spec: at tick `2*T` the supervisor sends the
graceful termination signal (recorded in `termTime`), otherwise the state
is unchanged. -/
def sendTerm (T : Nat) (s : SimState) : SimState :=
  if s.time = 2 * T then { s with termTime := some s.time } else s

/-- Modelled from the spec: at tick `3*T` the supervisor sends the
forceful kill (recorded in `killTime`), otherwise the state is
unchanged. -/
def sendKill (T : Nat) (s : SimState) : SimState :=
  if s.time = 3 * T then { s with killTime := some s.time } else s

/-- Modelled from the spec: the supervisory actions applied at one tick —
the graceful signal at its deadline, then the kill at its deadline. -/
def sendSignals (T : Nat) (s : SimState) : SimState :=
  sendKill T (sendTerm T s)

/-- Modelled from the spec: the supervisor's wait loop with escalating
timeouts. At tick `2*T` it sends the graceful termination signal, at tick
`3*T` the forceful kill; when the child exits (naturally, after the
graceful signal, or after the kill) it is reaped and the loop stops.
`fuel` bounds the recursion; `execute` supplies enough fuel to reach the
kill deadline. -/
def runSim (T : Nat) (p : ChildProcess) : Nat → SimState → SimState
  | 0, s => s
  | fuel + 1, s =>
    if s.exited then s
    else if procExitsNow p (sendSignals T s) then
      { sendSignals T s with exited := true, exitAt := some (sendSignals T s).time }
    else runSim T p fuel { sendSignals T s with time := (sendSignals T s).time + 1 }

/-- The initial supervisor state: tick 0, child running, no signal sent. -/
def initSimState : SimState :=
  { time := 0, exited := false, termTime := none, killTime := none, exitAt := none }

/-- Modelled from the spec: `execute(command, T)` — spawn the child and
run the supervision loop from tick 0. Fuel `3*T + 1` reaches the kill
deadline, past which no child survives. -/
def execute (T : Nat) (p : ChildProcess) : SimState :=
  runSim T p (3 * T + 1) initSimState

/-- The canonical loop state at tick `j` for a child that ignores all
signals: the graceful signal has been sent exactly when tick `2*T` has
passed. -/
def canonState (T j : Nat) : SimState :=
  { time := j
    exited := false
    termTime := if 2 * T < j then some (2 * T) else none
    killTime := none
    exitAt := none }

/-- The final supervisor state for a child that never exits on its own and
ignores the graceful signal: terminated gracefully at `2*T`, force-killed
and reaped at `3*T`. -/
def finalStuckState (T : Nat) : SimState :=
  { time := 3 * T
    exited := true
    termTime := some (2 * T)
    killTime := some (3 * T)
    exitAt := some (3 * T) }

/-- Supervisor state right after the forceful kill fires at tick `3*T`. -/
def killedState (T : Nat) : SimState :=
  { time := 3 * T
    exited := false
    termTime := some (2 * T)
    killTime := some (3 * T)
    exitAt := none }

/-- Supervisor state after the signal step at a tick `j` before the kill
deadline, for a stuck child: the graceful signal has been sent as soon as
tick `2*T` is reached. -/
def midState (T j : Nat) : SimState :=
  { time := j
    exited := false
    termTime := if 2 * T ≤ j then some (2 * T) else none
    killTime := none
    exitAt := none }

/-!  Theorems.  -/

/-- Taking back the first `m` characters of a truncated string recovers the
prefix that was kept, whenever `m` does not exceed the original length. -/
theorem take_append_marker (text : List Char) (m : Nat) (h : m ≤ text.length) :
    (text.take m ++ truncationMarker).take m = text.take m := by
  rw [List.take_append_eq_append_take, List.take_take, Nat.min_self,
    List.length_take, Nat.min_eq_left h, Nat.sub_self]
  simp

/-- Unfolding of `_truncate_for_log` on input longer than `max_length`. -/
theorem truncate_of_long (u : List Char) (m : Nat) (h : ¬ u.length ≤ m) :
    _truncate_for_log u m = u.take m ++ truncationMarker := by
  unfold _truncate_for_log
  rw [if_neg h]

/-- C5: for every string `text` and positive `max_length`, if
`len(text) <= max_length` then `_truncate_for_log` returns `text`
unchanged; otherwise it returns `text[:max_length]` followed by the fixed
marker `"... [truncated]"` (15 characters), so the result has length
`max_length + 15` and starts with `text[:max_length]`. -/
theorem truncate_for_log_spec (text : List Char) (max_length : Nat)
    (_hpos : 0 < max_length) :
    truncationMarker = "... [truncated]".data ∧
    truncationMarker.length = 15 ∧
    (text.length ≤ max_length → _truncate_for_log text max_length = text) ∧
    (max_length < text.length →
      _truncate_for_log text max_length = text.take max_length ++ truncationMarker ∧
      (_truncate_for_log text max_length).length = max_length + truncationMarker.length ∧
      (_truncate_for_log text max_length).take max_length = text.take max_length) := by
  refine ⟨rfl, by decide, fun h => by simp [_truncate_for_log, h], fun h => ?_⟩
  have hnot : ¬ text.length ≤ max_length := by omega
  have heq : _truncate_for_log text max_length = text.take max_length ++ truncationMarker := by
    simp [_truncate_for_log, hnot]
  refine ⟨heq, ?_, ?_⟩
  · rw [heq, List.length_append, List.length_take, Nat.min_eq_left h.le]
  · rw [heq, take_append_marker text max_length h.le]

/-- Witness for C5 at `text = "abcd"`, `max_length = 2`. -/
theorem truncate_for_log_spec_witness :
    _truncate_for_log "abcd".data 2 = "ab".data ++ truncationMarker :=
  ((truncate_for_log_spec "abcd".data 2 (by decide)).2.2.2 (by decide)).1

/-- C6: `_truncate_for_log` is a pure function and is idempotent on its own
truncated output: for every `text` with `len(text) > max_length`,
truncating the truncation (with the same `max_length`) returns it
unchanged. -/
theorem truncate_for_log_idempotent (text : List Char) (max_length : Nat)
    (h : max_length < text.length) :
    _truncate_for_log (_truncate_for_log text max_length) max_length =
      _truncate_for_log text max_length := by
  have hnot : ¬ text.length ≤ max_length := by omega
  have heq : _truncate_for_log text max_length = text.take max_length ++ truncationMarker := by
    simp [_truncate_for_log, hnot]
  have hlen : (_truncate_for_log text max_length).length = max_length + 15 := by
    rw [heq, List.length_append, List.length_take, Nat.min_eq_left h.le]
    rfl
  have hgt : ¬ (_truncate_for_log text max_length).length ≤ max_length := by omega
  calc _truncate_for_log (_truncate_for_log text max_length) max_length
      = (_truncate_for_log text max_length).take max_length ++ truncationMarker :=
        truncate_of_long _ _ hgt
    _ = text.take max_length ++ truncationMarker := by
        rw [heq, take_append_marker text max_length h.le]
    _ = _truncate_for_log text max_length := heq.symm

/-- Witness for C6 at `text = "abcd"`, `max_length = 2`. -/
theorem truncate_for_log_idempotent_witness :
    _truncate_for_log (_truncate_for_log "abcd".data 2) 2 = _truncate_for_log "abcd".data 2 :=
  truncate_for_log_idempotent "abcd".data 2 (by decide)

/-- Any result built by the `try` block of `run_shell_command` has
`success = (return_code == 0)`. -/
theorem supervisePhase_result_success (truncOut : String → String) (mem : GlobalMemory)
    (env : Env) (d : ApprovalDecision) (pr : Bool) (r : ExecutionResult)
    (h : (supervisePhase truncOut mem env d pr).result = some r) :
    r.success = (r.return_code == 0) := by
  unfold supervisePhase at h
  cases hs : env.supervisor with
  | ok v =>
    obtain ⟨o, rc⟩ := v
    rw [hs] at h
    simp only [Option.some.injEq] at h
    subst h
    rfl
  | error e =>
    rw [hs] at h
    simp only [Option.some.injEq] at h
    subst h
    rfl

/-- The bookkeeping fields of the `try` block: memory, decision and
prompting flag pass through, the supervisor is invoked, nothing is raised
and a result dict is produced. -/
theorem supervisePhase_fields (truncOut : String → String) (mem : GlobalMemory)
    (env : Env) (d : ApprovalDecision) (pr : Bool) :
    (supervisePhase truncOut mem env d pr).memory = mem ∧
    (supervisePhase truncOut mem env d pr).decision = d ∧
    (supervisePhase truncOut mem env d pr).prompted = pr ∧
    (supervisePhase truncOut mem env d pr).executed = true ∧
    (supervisePhase truncOut mem env d pr).raised = none ∧
    (supervisePhase truncOut mem env d pr).result.isSome = true := by
  unfold supervisePhase
  cases env.supervisor with
  | ok v => obtain ⟨o, rc⟩ := v; exact ⟨rfl, rfl, rfl, rfl, rfl, rfl⟩
  | error e => exact ⟨rfl, rfl, rfl, rfl, rfl, rfl⟩

/-- On a supervisor exception `e`, the `try` block converts it into the
dict `{"output": str(e), "return_code": 1, "success": False}`. -/
theorem supervisePhase_error (truncOut : String → String) (mem : GlobalMemory)
    (env : Env) (d : ApprovalDecision) (pr : Bool) (e : String)
    (hs : env.supervisor = Except.error e) :
    (supervisePhase truncOut mem env d pr).result =
      some { output := e, return_code := 1, success := false } := by
  unfold supervisePhase
  rw [hs]

/-- C1: every `ExecutionResult` returned by `run_shell_command`, on every
path (denial, normal completion, exception conversion), has
`success = (return_code == 0)`. -/
theorem run_shell_command_success_iff_zero (truncOut : String → String)
    (mem : GlobalMemory) (env : Env) (r : ExecutionResult)
    (h : (run_shell_command truncOut mem env).result = some r) :
    r.success = (r.return_code == 0) := by
  simp only [run_shell_command] at h
  split at h
  · exact supervisePhase_result_success _ _ _ _ _ _ h
  · split at h
    · simp only [Option.some.injEq] at h
      subst h
      decide
    · split at h
      · simp at h
      · exact supervisePhase_result_success _ _ _ _ _ _ h
    · exact supervisePhase_result_success _ _ _ _ _ _ h

/-- Witness for C1: a cowboy-mode call whose command exits with code 0. -/
theorem run_shell_command_success_iff_zero_witness :
    ({ output := "hello", return_code := 0, success := true } : ExecutionResult).success =
      (({ output := "hello", return_code := 0, success := true } : ExecutionResult).return_code == 0) :=
  run_shell_command_success_iff_zero id
    { config := some { cowboy_mode := true } }
    { userResponse := none, supervisor := Except.ok ("hello", 0) }
    { output := "hello", return_code := 0, success := true }
    (by decide)

/-- Branch reduction: with `cowboy_mode` set, the call goes straight to
the `try` block without prompting. -/
theorem rsc_cowboy (truncOut : String → String) (mem : GlobalMemory) (env : Env)
    (h : cowboyModeOf mem = true) :
    run_shell_command truncOut mem env =
      supervisePhase truncOut mem env ApprovalDecision.Run false := by
  simp [run_shell_command, h]

/-- Branch reduction: no explicit answer defaults to `"y"` and executes. -/
theorem rsc_default (truncOut : String → String) (mem : GlobalMemory) (env : Env)
    (h : cowboyModeOf mem = false) (hr : env.userResponse = none) :
    run_shell_command truncOut mem env =
      supervisePhase truncOut mem env ApprovalDecision.Run true := by
  simp [run_shell_command, h, hr]

/-- Branch reduction: answer `"y"` executes. -/
theorem rsc_yes (truncOut : String → String) (mem : GlobalMemory) (env : Env)
    (h : cowboyModeOf mem = false) (hr : env.userResponse = some Response.y) :
    run_shell_command truncOut mem env =
      supervisePhase truncOut mem env ApprovalDecision.Run true := by
  simp [run_shell_command, h, hr]

/-- Branch reduction: answer `"n"` returns the cancellation dict without
touching the supervisor. -/
theorem rsc_no (truncOut : String → String) (mem : GlobalMemory) (env : Env)
    (h : cowboyModeOf mem = false) (hr : env.userResponse = some Response.n) :
    run_shell_command truncOut mem env =
      { result := some
          { output := "Command execution cancelled by user"
            return_code := 1
            success := false }
        raised := none
        memory := mem
        decision := ApprovalDecision.Deny
        prompted := true
        executed := false } := by
  simp [run_shell_command, h, hr]

/-- Branch reduction: answer `"c"` with a present `"config"` entry promotes
the session and then executes. -/
theorem rsc_promote (truncOut : String → String) (mem : GlobalMemory) (env : Env)
    (cfg : Config) (h : cowboyModeOf mem = false)
    (hr : env.userResponse = some Response.c) (hcfg : mem.config = some cfg) :
    run_shell_command truncOut mem env =
      supervisePhase truncOut { config := some { cfg with cowboy_mode := true } } env
        ApprovalDecision.RunAndPromoteSession true := by
  simp [run_shell_command, h, hr, promoteCowboy, hcfg]

/-- Branch reduction: answer `"c"` with no `"config"` entry raises
`KeyError("config")` before the supervisor is reached. -/
theorem rsc_promote_keyerror (truncOut : String → String) (mem : GlobalMemory) (env : Env)
    (h : cowboyModeOf mem = false) (hr : env.userResponse = some Response.c)
    (hcfg : mem.config = none) :
    run_shell_command truncOut mem env =
      { result := none
        raised := some (PyError.keyError "config")
        memory := mem
        decision := ApprovalDecision.RunAndPromoteSession
        prompted := true
        executed := false } := by
  simp [run_shell_command, h, hr, promoteCowboy, hcfg]

/-- C2: when not in unattended mode and the user answers `"n"`, the call
returns exactly the cancellation dict and never invokes
`run_interactive_command`. -/
theorem run_shell_command_deny (truncOut : String → String) (mem : GlobalMemory)
    (env : Env) (h : cowboyModeOf mem = false)
    (hr : env.userResponse = some Response.n) :
    (run_shell_command truncOut mem env).result =
      some { output := "Command execution cancelled by user"
             return_code := 1
             success := false } ∧
    (run_shell_command truncOut mem env).executed = false := by
  rw [rsc_no truncOut mem env h hr]
  exact ⟨rfl, rfl⟩

/-- Witness for C2: a fresh session whose user declines the command. -/
theorem run_shell_command_deny_witness :
    (run_shell_command id { config := some { cowboy_mode := false } }
        { userResponse := some Response.n, supervisor := Except.ok ("", 0) }).result =
      some { output := "Command execution cancelled by user"
             return_code := 1
             success := false } ∧
    (run_shell_command id { config := some { cowboy_mode := false } }
        { userResponse := some Response.n, supervisor := Except.ok ("", 0) }).executed = false :=
  run_shell_command_deny id { config := some { cowboy_mode := false } }
    { userResponse := some Response.n, supervisor := Except.ok ("", 0) } rfl rfl

/-- C7: with the unattended flag set at the start of the call, the user is
never prompted, the decision is `Run`, and execution proceeds directly. -/
theorem run_shell_command_unattended (truncOut : String → String) (mem : GlobalMemory)
    (env : Env) (h : cowboyModeOf mem = true) :
    (run_shell_command truncOut mem env).prompted = false ∧
    (run_shell_command truncOut mem env).decision = ApprovalDecision.Run ∧
    (run_shell_command truncOut mem env).executed = true := by
  rw [rsc_cowboy truncOut mem env h]
  obtain ⟨-, hd, hp, hx, -, -⟩ :=
    supervisePhase_fields truncOut mem env ApprovalDecision.Run false
  exact ⟨hp, hd, hx⟩

/-- Witness for C7: an unattended-mode call. -/
theorem run_shell_command_unattended_witness :
    (run_shell_command id { config := some { cowboy_mode := true } }
        { userResponse := none, supervisor := Except.ok ("hi", 0) }).prompted = false ∧
    (run_shell_command id { config := some { cowboy_mode := true } }
        { userResponse := none, supervisor := Except.ok ("hi", 0) }).decision =
      ApprovalDecision.Run ∧
    (run_shell_command id { config := some { cowboy_mode := true } }
        { userResponse := none, supervisor := Except.ok ("hi", 0) }).executed = true :=
  run_shell_command_unattended id { config := some { cowboy_mode := true } }
    { userResponse := none, supervisor := Except.ok ("hi", 0) } rfl

/-- C8: when not in unattended mode the gate prompts (exactly once per
call), the decision taken is `decisionOf` of the environment's answer, and
`decisionOf` maps `{y, n, c}` to `{Run, Deny, RunAndPromoteSession}` with
default `Run` when no explicit answer is supplied. -/
theorem run_shell_command_gate_mapping (truncOut : String → String)
    (mem : GlobalMemory) (env : Env) (h : cowboyModeOf mem = false) :
    (run_shell_command truncOut mem env).prompted = true ∧
    (run_shell_command truncOut mem env).decision = decisionOf env.userResponse ∧
    decisionOf (some Response.y) = ApprovalDecision.Run ∧
    decisionOf (some Response.n) = ApprovalDecision.Deny ∧
    decisionOf (some Response.c) = ApprovalDecision.RunAndPromoteSession ∧
    decisionOf none = ApprovalDecision.Run := by
  have key : (run_shell_command truncOut mem env).prompted = true ∧
      (run_shell_command truncOut mem env).decision = decisionOf env.userResponse := by
    cases hr : env.userResponse with
    | none =>
      rw [rsc_default truncOut mem env h hr]
      obtain ⟨-, hd, hp, -, -, -⟩ :=
        supervisePhase_fields truncOut mem env ApprovalDecision.Run true
      exact ⟨hp, by rw [hd]; rfl⟩
    | some resp =>
      cases resp with
      | y =>
        rw [rsc_yes truncOut mem env h hr]
        obtain ⟨-, hd, hp, -, -, -⟩ :=
          supervisePhase_fields truncOut mem env ApprovalDecision.Run true
        exact ⟨hp, by rw [hd]; rfl⟩
      | n =>
        rw [rsc_no truncOut mem env h hr]
        exact ⟨rfl, rfl⟩
      | c =>
        cases hcfg : mem.config with
        | none =>
          rw [rsc_promote_keyerror truncOut mem env h hr hcfg]
          exact ⟨rfl, rfl⟩
        | some cfg =>
          rw [rsc_promote truncOut mem env cfg h hr hcfg]
          obtain ⟨-, hd, hp, -, -, -⟩ :=
            supervisePhase_fields truncOut { config := some { cfg with cowboy_mode := true } }
              env ApprovalDecision.RunAndPromoteSession true
          exact ⟨hp, by rw [hd]; rfl⟩
  exact ⟨key.1, key.2, rfl, rfl, rfl, rfl⟩

/-- Witness for C8: a fresh attended session with no explicit answer. -/
theorem run_shell_command_gate_mapping_witness :
    (run_shell_command id { config := some { cowboy_mode := false } }
        { userResponse := none, supervisor := Except.ok ("", 0) }).prompted = true :=
  (run_shell_command_gate_mapping id { config := some { cowboy_mode := false } }
    { userResponse := none, supervisor := Except.ok ("", 0) } rfl).1

/-- C10: with no `"config"` entry in the session memory, the flag still
reads as `false` (defaulted lookup), but choosing promotion `"c"` raises
`KeyError` before execution: nothing runs and unattended mode is not
set. -/
theorem run_shell_command_missing_config (truncOut : String → String)
    (mem : GlobalMemory) (env : Env) (hcfg : mem.config = none) :
    cowboyModeOf mem = false ∧
    (env.userResponse = some Response.c →
      (run_shell_command truncOut mem env).raised = some (PyError.keyError "config") ∧
      (run_shell_command truncOut mem env).result = none ∧
      (run_shell_command truncOut mem env).executed = false ∧
      cowboyModeOf (run_shell_command truncOut mem env).memory = false) := by
  have h : cowboyModeOf mem = false := by
    unfold cowboyModeOf
    rw [hcfg]
  refine ⟨h, fun hr => ?_⟩
  rw [rsc_promote_keyerror truncOut mem env h hr hcfg]
  exact ⟨rfl, rfl, rfl, h⟩

/-- Witness for C10: memory without a `"config"` entry and answer `"c"`. -/
theorem run_shell_command_missing_config_witness :
    (run_shell_command id { config := none }
        { userResponse := some Response.c, supervisor := Except.ok ("", 0) }).raised =
      some (PyError.keyError "config") :=
  ((run_shell_command_missing_config id { config := none }
      { userResponse := some Response.c, supervisor := Except.ok ("", 0) } rfl).2 rfl).1

/-- C3: the unattended flag is monotonic (a call that starts with it set
leaves it set; no operation clears it), and promotion via `"c"` sets it
before execution proceeds, so the promoting call executes and any
subsequent call in the same session does not prompt. -/
theorem cowboy_promotion_monotonic (truncOut truncOut2 : String → String)
    (mem : GlobalMemory) (env env2 : Env) (cfg : Config)
    (h : cowboyModeOf mem = false) (hr : env.userResponse = some Response.c)
    (hcfg : mem.config = some cfg) :
    (∀ (t : String → String) (m : GlobalMemory) (e : Env),
        cowboyModeOf m = true →
        cowboyModeOf (run_shell_command t m e).memory = true) ∧
    cowboyModeOf (run_shell_command truncOut mem env).memory = true ∧
    (run_shell_command truncOut mem env).executed = true ∧
    (run_shell_command truncOut2 (run_shell_command truncOut mem env).memory env2).prompted =
      false := by
  have mono : ∀ (t : String → String) (m : GlobalMemory) (e : Env),
      cowboyModeOf m = true → cowboyModeOf (run_shell_command t m e).memory = true := by
    intro t m e hm
    rw [rsc_cowboy t m e hm]
    obtain ⟨hmem, -, -, -, -, -⟩ :=
      supervisePhase_fields t m e ApprovalDecision.Run false
    rw [hmem]
    exact hm
  refine ⟨mono, ?_⟩
  rw [rsc_promote truncOut mem env cfg h hr hcfg]
  obtain ⟨hmem, -, -, hx, -, -⟩ :=
    supervisePhase_fields truncOut { config := some { cfg with cowboy_mode := true } } env
      ApprovalDecision.RunAndPromoteSession true
  have hcb : cowboyModeOf { config := some { cfg with cowboy_mode := true } } = true := rfl
  refine ⟨by rw [hmem]; exact hcb, hx, ?_⟩
  rw [hmem, rsc_cowboy truncOut2 { config := some { cfg with cowboy_mode := true } } env2 hcb]
  exact (supervisePhase_fields truncOut2 { config := some { cfg with cowboy_mode := true } }
    env2 ApprovalDecision.Run false).2.2.1

/-- Witness for C3: a fresh session promoting on call 1. -/
theorem cowboy_promotion_monotonic_witness :
    (run_shell_command id { config := some { cowboy_mode := false } }
        { userResponse := some Response.c, supervisor := Except.ok ("", 0) }).executed = true :=
  (cowboy_promotion_monotonic id id { config := some { cowboy_mode := false } }
    { userResponse := some Response.c, supervisor := Except.ok ("", 0) }
    { userResponse := some Response.n, supervisor := Except.ok ("", 0) }
    { cowboy_mode := false } rfl rfl rfl).2.2.1

/-- Counterexample to C9 as stated: on the concrete input with no
`"config"` entry and answer `"c"`, the call propagates `KeyError` and
returns no result, so not every path through `run_shell_command` returns a
well-formed result. -/
theorem run_shell_command_total_counterexample :
    (run_shell_command id { config := none }
        { userResponse := some Response.c, supervisor := Except.ok ("", 0) }).result = none ∧
    (run_shell_command id { config := none }
        { userResponse := some Response.c, supervisor := Except.ok ("", 0) }).raised =
      some (PyError.keyError "config") :=
  ⟨rfl, rfl⟩

/-- C9 (amended): every exception raised by the Process Supervisor is
caught and converted into `{"output": str(e), "return_code": 1,
"success": False}` with nothing propagated, and every path except the
missing-`"config"` promotion path (which raises `KeyError`, claim C10)
returns a well-formed result. -/
theorem run_shell_command_exception_conversion (truncOut : String → String)
    (mem : GlobalMemory) (env : Env) (e : String)
    (hs : env.supervisor = Except.error e)
    (hx : (run_shell_command truncOut mem env).executed = true) :
    (run_shell_command truncOut mem env).result =
      some { output := e, return_code := 1, success := false } ∧
    (run_shell_command truncOut mem env).raised = none ∧
    (∀ (t : String → String) (m : GlobalMemory) (e2 : Env),
        ¬ (m.config = none ∧ e2.userResponse = some Response.c) →
        ((run_shell_command t m e2).result).isSome = true) := by
  have hkey : ∃ mem' d pr, run_shell_command truncOut mem env =
      supervisePhase truncOut mem' env d pr := by
    cases hcb : cowboyModeOf mem with
    | true => exact ⟨mem, _, _, rsc_cowboy truncOut mem env hcb⟩
    | false =>
      cases hr : env.userResponse with
      | none => exact ⟨mem, _, _, rsc_default truncOut mem env hcb hr⟩
      | some resp =>
        cases resp with
        | y => exact ⟨mem, _, _, rsc_yes truncOut mem env hcb hr⟩
        | n =>
          rw [rsc_no truncOut mem env hcb hr] at hx
          simp at hx
        | c =>
          cases hcfg : mem.config with
          | none =>
            rw [rsc_promote_keyerror truncOut mem env hcb hr hcfg] at hx
            simp at hx
          | some cfg => exact ⟨_, _, _, rsc_promote truncOut mem env cfg hcb hr hcfg⟩
  obtain ⟨mem', d, pr, heq⟩ := hkey
  rw [heq]
  refine ⟨supervisePhase_error truncOut mem' env d pr e hs,
    (supervisePhase_fields truncOut mem' env d pr).2.2.2.2.1, ?_⟩
  intro t m e2 hne
  cases hcb : cowboyModeOf m with
  | true =>
    rw [rsc_cowboy t m e2 hcb]
    exact (supervisePhase_fields t m e2 ApprovalDecision.Run false).2.2.2.2.2
  | false =>
    cases hr : e2.userResponse with
    | none =>
      rw [rsc_default t m e2 hcb hr]
      exact (supervisePhase_fields t m e2 ApprovalDecision.Run true).2.2.2.2.2
    | some resp =>
      cases resp with
      | y =>
        rw [rsc_yes t m e2 hcb hr]
        exact (supervisePhase_fields t m e2 ApprovalDecision.Run true).2.2.2.2.2
      | n =>
        rw [rsc_no t m e2 hcb hr]
        rfl
      | c =>
        cases hcfg : m.config with
        | none => exact absurd ⟨hcfg, hr⟩ hne
        | some cfg =>
          rw [rsc_promote t m e2 cfg hcb hr hcfg]
          exact (supervisePhase_fields t { config := some { cfg with cowboy_mode := true } }
            e2 ApprovalDecision.RunAndPromoteSession true).2.2.2.2.2

/-- Witness for C9 (amended): an unattended call whose supervisor raises. -/
theorem run_shell_command_exception_conversion_witness :
    (run_shell_command id { config := some { cowboy_mode := true } }
        { userResponse := none, supervisor := Except.error "boom" }).result =
      some { output := "boom", return_code := 1, success := false } :=
  (run_shell_command_exception_conversion id { config := some { cowboy_mode := true } }
    { userResponse := none, supervisor := Except.error "boom" } "boom" rfl rfl).1

/-- The signal step at tick `2*T` preserves the clock. -/
theorem sendTerm_time (T : Nat) (s : SimState) : (sendTerm T s).time = s.time := by
  unfold sendTerm; split <;> rfl

/-- The kill step at tick `3*T` preserves the clock. -/
theorem sendKill_time (T : Nat) (s : SimState) : (sendKill T s).time = s.time := by
  unfold sendKill; split <;> rfl

/-- The combined signal step preserves the clock. -/
theorem sendSignals_time (T : Nat) (s : SimState) : (sendSignals T s).time = s.time := by
  unfold sendSignals; rw [sendKill_time, sendTerm_time]

/-- At the kill deadline the kill is recorded. -/
theorem sendKill_at_deadline (T : Nat) (s : SimState) (h : s.time = 3 * T) :
    (sendKill T s).killTime = some s.time := by
  unfold sendKill; rw [if_pos h]

/-- After the signal step at the kill deadline, a kill has been sent. -/
theorem sendSignals_kill_at_deadline (T : Nat) (s : SimState) (h : s.time = 3 * T) :
    ((sendSignals T s).killTime).isSome = true := by
  unfold sendSignals
  rw [sendKill_at_deadline T _ (by rw [sendTerm_time]; exact h)]
  rfl

/-- The supervision loop always reaps the child given fuel past the kill
deadline: the wait never hangs. -/
theorem runSim_exits (T : Nat) (p : ChildProcess) :
    ∀ (fuel : Nat) (s : SimState), s.time ≤ 3 * T → 3 * T - s.time < fuel →
      (runSim T p fuel s).exited = true := by
  intro fuel
  induction fuel with
  | zero => intro s _ h2; omega
  | succ n ih =>
    intro s h1 h2
    rw [runSim]
    by_cases hex : s.exited = true
    · rw [if_pos hex]; exact hex
    · rw [if_neg hex]
      by_cases hpe : procExitsNow p (sendSignals T s) = true
      · rw [if_pos hpe]
      · rw [if_neg hpe]
        have h3 : ¬ s.time = 3 * T := by
          intro h3
          have := sendSignals_kill_at_deadline T s h3
          apply hpe
          unfold procExitsNow
          rw [this]
          simp
        apply ih
        · simp only [sendSignals_time]; omega
        · simp only [sendSignals_time]; omega

/-- The signal step is the identity away from the graceful deadline. -/
theorem sendTerm_of_ne (T : Nat) (s : SimState) (h : ¬ s.time = 2 * T) :
    sendTerm T s = s := by
  unfold sendTerm; rw [if_neg h]

/-- The kill step is the identity away from the kill deadline. -/
theorem sendKill_of_ne (T : Nat) (s : SimState) (h : ¬ s.time = 3 * T) :
    sendKill T s = s := by
  unfold sendKill; rw [if_neg h]

/-- At the graceful deadline the termination signal is recorded. -/
theorem sendTerm_at (T : Nat) (s : SimState) (h : s.time = 2 * T) :
    sendTerm T s = { s with termTime := some s.time } := by
  unfold sendTerm; rw [if_pos h]

/-- At the kill deadline the kill is recorded in the state. -/
theorem sendKill_at (T : Nat) (s : SimState) (h : s.time = 3 * T) :
    sendKill T s = { s with killTime := some s.time } := by
  unfold sendKill; rw [if_pos h]

/-- The clock of the canonical stuck-run state. -/
theorem canonState_time (T j : Nat) : (canonState T j).time = j := rfl

/-- Stepping the clock of the mid-run state reaches the next canonical
state. -/
theorem midState_succ (T j : Nat) :
    ({ midState T j with time := (midState T j).time + 1 } : SimState) =
      canonState T (j + 1) := by
  unfold midState canonState
  have hif : (if 2 * T ≤ j then some (2 * T) else none : Option Nat) =
      (if 2 * T < j + 1 then some (2 * T) else none) :=
    if_congr (by omega) rfl rfl
  rw [hif]

/-- A child that neither exits on its own by `3*T` nor honours the
graceful signal drives the loop through the canonical states to the
force-killed final state. -/
theorem runSim_stuck (T : Nat) (p : ChildProcess) (hT : 0 < T)
    (hn : ∀ m, p.naturalExit = some m → 3 * T < m) (ht : p.exitsOnTerm = false) :
    ∀ (fuel j : Nat), j ≤ 3 * T → 3 * T - j < fuel →
      runSim T p fuel (canonState T j) = finalStuckState T := by
  intro fuel
  induction fuel with
  | zero => intro j _ h2; omega
  | succ n ih =>
    intro j h1 h2
    rw [runSim, if_neg (show ¬ (canonState T j).exited = true by simp [canonState])]
    by_cases hj3 : j = 3 * T
    · subst hj3
      have hs : sendSignals T (canonState T (3 * T)) = killedState T := by
        unfold sendSignals
        rw [sendTerm_of_ne T _ (by rw [canonState_time]; omega),
          sendKill_at T _ (canonState_time T (3 * T))]
        simp [canonState, killedState]
        omega
      have hpe : procExitsNow p (killedState T) = true := by
        simp [procExitsNow, killedState]
      rw [hs, if_pos hpe]
      rfl
    · have hs : sendSignals T (canonState T j) = midState T j := by
        unfold sendSignals midState
        by_cases hj2 : j = 2 * T
        · subst hj2
          rw [sendTerm_at T _ (canonState_time T (2 * T)),
            sendKill_of_ne T _ (by rw [canonState_time]; omega)]
          simp [canonState]
        · rw [sendTerm_of_ne T _ (by rw [canonState_time]; exact hj2),
            sendKill_of_ne T _ (by rw [canonState_time]; exact hj3)]
          unfold canonState
          have hif : (if 2 * T < j then some (2 * T) else none : Option Nat) =
              (if 2 * T ≤ j then some (2 * T) else none) :=
            if_congr (by omega) rfl rfl
          rw [hif]
      have hpe : procExitsNow p (midState T j) = false := by
        unfold procExitsNow midState
        cases hne : p.naturalExit with
        | none => simp [ht]
        | some m =>
          have := hn m hne
          simp [ht]
          omega
      rw [hs, if_neg (by rw [hpe]; simp), midState_succ]
      exact ih (j + 1) (by omega) (by omega)

/-- C4 (spec-modelled): for a child process that does not exit on its own
by the kill deadline and ignores graceful termination, the supervisor
sends the graceful signal at `2*T`, the forceful kill at `3*T`, and the
child is reaped at `3*T`; moreover `execute` always returns (the child is
reaped) for every budget and every child. -/
theorem execute_escalation (T : Nat) (p : ChildProcess) (hT : 0 < T)
    (hn : ∀ m, p.naturalExit = some m → 3 * T < m) (ht : p.exitsOnTerm = false) :
    (execute T p).termTime = some (2 * T) ∧
    (execute T p).killTime = some (3 * T) ∧
    (execute T p).exitAt = some (3 * T) ∧
    (execute T p).exited = true ∧
    ∀ (S : Nat) (q : ChildProcess), (execute S q).exited = true := by
  have hinit : initSimState = canonState T 0 := by
    simp [initSimState, canonState]
  have hrun : execute T p = finalStuckState T := by
    unfold execute
    rw [hinit]
    exact runSim_stuck T p hT hn ht (3 * T + 1) 0 (by omega) (by omega)
  refine ⟨by rw [hrun]; rfl, by rw [hrun]; rfl, by rw [hrun]; rfl, by rw [hrun]; rfl, ?_⟩
  intro S q
  exact runSim_exits S q (3 * S + 1) initSimState (by simp [initSimState])
    (by simp [initSimState])

/-- Witness for C4: budget `T = 1` and a child that sleeps forever and
ignores graceful termination. -/
theorem execute_escalation_witness :
    (execute 1 { naturalExit := none, exitsOnTerm := false }).killTime = some (3 * 1) :=
  (execute_escalation 1 { naturalExit := none, exitsOnTerm := false }
    (by decide) (fun m h => nomatch h) rfl).2.1

end RAAid
